import Mathlib

/-!
Shallow embedding of the Jenkins API client (`JenkinsClient` in the
repository backend).  The network is modelled as an oracle mapping each
request (method, url, body) to an outcome; JavaScript values appearing in
parsed JSON bodies are modelled by `JVal`; JavaScript property reads that
may throw a `TypeError` on `null` are modelled with `Except`, mirroring the
`try`/`catch` blocks of the source.  Every operation additionally returns
the list of network requests it issued, so that claims about request
targets and about "no network call" are expressible.
-/

namespace JenkinsClient

/-- Model of a JavaScript (parsed JSON) value. -/
inductive JVal where
  | null : JVal
  | bool (b : Bool) : JVal
  | num (n : Int) : JVal
  | str (s : String) : JVal
  | arr (xs : List JVal) : JVal
  | obj (kvs : List (String × JVal)) : JVal

/-- Response headers, in order. -/
abbrev Headers := List (String × String)

inductive Method where
  | get : Method
  | post : Method
deriving DecidableEq, Repr

/-- A network request as issued by the client. -/
structure Request where
  method : Method
  url : String
  body : Option String
deriving DecidableEq, Repr

/-- The ways an axios call can fail (`error.response` present means an HTTP
status error; otherwise `error.code` distinguishes the network failures). -/
inductive AxiosError where
  | httpError (status : Nat) (message : String) (headers : Headers) : AxiosError
  | econnrefused (message : String) : AxiosError
  | enotfound (message : String) : AxiosError
  | etimedout (message : String) : AxiosError
  | otherError (message : String) : AxiosError

/-- Outcome of one network request. -/
inductive HttpOutcome where
  | ok (data : JVal) (headers : Headers) : HttpOutcome
  | err (e : AxiosError) : HttpOutcome

/-- The network oracle: what the server answers to each request. -/
abbrev Net := Request → HttpOutcome

/-- A single apostrophe character, used in JavaScript error and status
messages. -/
def sq : String := String.singleton (Char.ofNat 39)

/-- `s` wrapped in apostrophes, as in the template literal of
`testConnection`. -/
def squote (s : String) : String := sq ++ s ++ sq

/-- The Node.js `TypeError` message raised by reading property `k` of
`null`. -/
def nullReadMsg (k : String) : String :=
  "Cannot read properties of null (reading " ++ squote k ++ ")"

/-- JavaScript truthiness of a `JVal`. -/
def jsTruthy : JVal → Bool
  | .null => false
  | .bool b => b
  | .num n => n != 0
  | .str s => s != ""
  | .arr _ => true
  | .obj _ => true

mutual

/-- JavaScript `String(v)` conversion; arrays join their elements with
commas, `null` elements rendering as the empty string. -/
def jsString : JVal → String
  | .null => "null"
  | .bool b => if b then "true" else "false"
  | .num n => toString n
  | .str s => s
  | .obj _ => "[object Object]"
  | .arr xs => String.intercalate "," (jsStringElems xs)

/-- `String(v)` of each element of an array, per `Array.prototype.join`. -/
def jsStringElems : List JVal → List String
  | [] => []
  | .null :: vs => "" :: jsStringElems vs
  | v :: vs => jsString v :: jsStringElems vs

end

/-- Property read `d[k]` on a value known not to be `null` (total; returns
`none` for JavaScript `undefined`). -/
def jsGet (d : JVal) (k : String) : Option JVal :=
  match d with
  | .obj kvs => (kvs.find? (fun kv => kv.1 == k)).map (fun kv => kv.2)
  | _ => none

/-- Property read `d.k` that throws a `TypeError` when `d` is `null`,
as in the source locations guarded only by `try`/`catch`. -/
def jsProp (d : JVal) (k : String) : Except String (Option JVal) :=
  match d with
  | .null => .error (nullReadMsg k)
  | _ => .ok (jsGet d k)

/-- JavaScript `a || dflt` applied to a property-read result. -/
def jsOr (v? : Option JVal) (dflt : JVal) : JVal :=
  match v? with
  | some v => if jsTruthy v then v else dflt
  | none => dflt

/-- `typeof d === "object" && d !== null` (arrays included). -/
def isObjectLike : JVal → Bool
  | .obj _ => true
  | .arr _ => true
  | _ => false

/-- `Object.keys(d)` for the object-like values used by `getDebugInfo`. -/
def jsKeys : JVal → List String
  | .obj kvs => kvs.map (fun kv => kv.1)
  | .arr xs => (List.range xs.length).map (fun i => toString i)
  | _ => []

/-- Indexing `d[k]` with a key string (array indices included). -/
def jsIndex (d : JVal) (k : String) : Option JVal :=
  match d with
  | .obj kvs => (kvs.find? (fun kv => kv.1 == k)).map (fun kv => kv.2)
  | .arr xs =>
    match k.toNat? with
    | some i => xs.get? i
    | none => none
  | _ => none

/-- The `.length` property of a JavaScript value (`none` = `undefined`). -/
def jsLength : JVal → Option JVal
  | .arr xs => some (.num xs.length)
  | .str s => some (.num s.length)
  | _ => none

/-- `String.prototype.substring(0, n)`, i.e. the first `n` characters. -/
def jsSubstrTo (s : String) (n : Nat) : String := String.mk (s.data.take n)

/-- `a` is a prefix of `b` (character lists). -/
def isPrefixL : List Char → List Char → Bool
  | [], _ => true
  | _ :: _, [] => false
  | a :: as, b :: bs => a == b && isPrefixL as bs

/-- `sub` occurs somewhere in `l`. -/
def containsSubList (sub : List Char) : List Char → Bool
  | [] => sub.isEmpty
  | c :: rest => isPrefixL sub (c :: rest) || containsSubList sub rest

/-- `String.prototype.includes(sub)`. -/
def jsIncludes (s sub : String) : Bool := containsSubList sub.data s.data

/-- `String.prototype.split(sep)` for a one-character separator, on
character lists. -/
def splitChar (sep : Char) : List Char → List (List Char)
  | [] => [[]]
  | c :: rest =>
    let r := splitChar sep rest
    if c == sep then [] :: r
    else
      match r with
      | h :: t => (c :: h) :: t
      | [] => [[c]]

/-- `String.prototype.split(sep)` for a one-character separator. -/
def jsSplit (s : String) (sep : Char) : List String :=
  (splitChar sep s.data).map String.mk

/-- `String.prototype.trim()`. -/
def jsTrim (s : String) : String :=
  String.mk (((s.data.dropWhile Char.isWhitespace).reverse.dropWhile
    Char.isWhitespace).reverse)

/-- `String.prototype.toLowerCase()` (ASCII, as the header names need). -/
def jsToLower (s : String) : String := String.mk (s.data.map Char.toLower)

/-- The first character is an ASCII digit (`/^\d/.test(part)`). -/
def jsFirstIsDigit (s : String) : Bool :=
  match s.data with
  | c :: _ => c.isDigit
  | [] => false

/-- `baseUrl.replace(/\/$/, "")`: strip one trailing slash. -/
def stripSlash (s : String) : String :=
  match s.data.getLast? with
  | some c => if c == '/' then String.mk s.data.dropLast else s
  | none => s

/-- UTF-8 bytes of one character. -/
def utf8Bytes (c : Char) : List Nat :=
  let n := c.toNat
  if n < 0x80 then [n]
  else if n < 0x800 then
    [0xC0 ||| (n >>> 6), 0x80 ||| (n &&& 0x3F)]
  else if n < 0x10000 then
    [0xE0 ||| (n >>> 12), 0x80 ||| ((n >>> 6) &&& 0x3F), 0x80 ||| (n &&& 0x3F)]
  else
    [0xF0 ||| (n >>> 18), 0x80 ||| ((n >>> 12) &&& 0x3F),
     0x80 ||| ((n >>> 6) &&& 0x3F), 0x80 ||| (n &&& 0x3F)]

/-- UTF-8 bytes of a string. -/
def strBytes (s : String) : List Nat := (s.data.map utf8Bytes).flatten

/-- Uppercase hexadecimal digit, for percent-encoding. -/
def hexDigit (n : Nat) : Char :=
  if n < 10 then Char.ofNat (48 + n) else Char.ofNat (55 + n)

/-- `%HH` encoding of one byte (uppercase, as `encodeURIComponent` does). -/
def percentByte (b : Nat) : String :=
  "%" ++ String.mk [hexDigit (b / 16), hexDigit (b % 16)]

/-- The characters `encodeURIComponent` leaves unescaped:
alphanumerics and `- _ . ! ~ * ' ( )`. -/
def uriUnreserved (c : Char) : Bool :=
  c.isAlpha || c.isDigit ||
    (c.toNat == 45 || c.toNat == 95 || c.toNat == 46 || c.toNat == 33 ||
     c.toNat == 126 || c.toNat == 42 || c.toNat == 39 || c.toNat == 40 ||
     c.toNat == 41)

/-- JavaScript `encodeURIComponent`. -/
def encodeURIComponent (s : String) : String :=
  String.join (s.data.map (fun c =>
    if uriUnreserved c then String.singleton c
    else String.join ((utf8Bytes c).map percentByte)))

/-- The base64 alphabet. -/
def base64Chars : List Char :=
  "ABCDEFGHIJKLMNOPQRSTUVWXYZabcdefghijklmnopqrstuvwxyz0123456789+/".data

def b64Char (n : Nat) : Char := base64Chars.getD n (Char.ofNat 65)

/-- Standard base64 encoding of a byte list, with padding. -/
def base64Encode : List Nat → String
  | [] => ""
  | [a] => String.mk [b64Char (a / 4), b64Char ((a % 4) * 16)] ++ "=="
  | [a, b] =>
    String.mk [b64Char (a / 4), b64Char ((a % 4) * 16 + b / 16),
      b64Char ((b % 16) * 4)] ++ "="
  | a :: b :: c :: rest =>
    String.mk [b64Char (a / 4), b64Char ((a % 4) * 16 + b / 16),
      b64Char ((b % 16) * 4 + c / 64), b64Char (c % 64)] ++ base64Encode rest

/-- `createAuthHeader`: the `Authorization` header value,
`Basic base64(username:password)`. -/
def createAuthHeader (username password : String) : String :=
  "Basic " ++ base64Encode (strBytes (username ++ ":" ++ password))

/-- The client session state: `session` (the JS `null`/`true` flag),
`baseUrl` and `authHeader`. -/
structure ClientState where
  session : Bool
  baseUrl : Option String
  authHeader : Option String
deriving DecidableEq, Repr

/-- The state produced by the constructor, all fields `null`. -/
def initialState : ClientState := ⟨false, none, none⟩

/-- `isConnected()`: `this.session !== null && this.baseUrl !== null`. -/
def isConnected (s : ClientState) : Bool :=
  s.session && s.baseUrl.isSome

/-- `disconnect()`: unconditionally null out all three fields. -/
def disconnect (_ : ClientState) : ClientState := ⟨false, none, none⟩

/-- JavaScript falsiness of the `baseUrl` field (`null` or empty). -/
def jsFalsyOptStr : Option String → Bool
  | none => true
  | some s => s == ""

/-- The error-classification branch of `makeRequest`'s `catch`. -/
def errClass : AxiosError → String
  | .httpError status msg _ =>
    if status == 401 then "Authentication failed - check username/password"
    else if status == 403 then "Access denied - insufficient permissions"
    else if status == 404 then "Jenkins server not found or endpoint unavailable"
    else "HTTP " ++ (toString status ++ (": " ++ msg))
  | .econnrefused _ => "Connection failed - check server URL and network"
  | .enotfound _ => "Connection failed - check server URL and network"
  | .etimedout _ => "Request timeout - Jenkins server may be slow"
  | .otherError msg => "Request error: " ++ msg

/-- The raw `error.message` of an axios error, used by the `config.xml`
operations which bypass `makeRequest`. -/
def axiosMessage : AxiosError → String
  | .httpError _ msg _ => msg
  | .econnrefused msg => msg
  | .enotfound msg => msg
  | .etimedout msg => msg
  | .otherError msg => msg

/-- `error.response?.headers || {}` on the failure path. -/
def failHeaders : AxiosError → Headers
  | .httpError _ _ h => h
  | _ => []

/-- `makeRequest(endpoint)`: the transport primitive.  Returns the
`(data, error, headers)` triple together with the list of network requests
issued. -/
def makeRequest (s : ClientState) (net : Net) (endpoint : String) :
    (Option JVal × Option String × Headers) × List Request :=
  if !s.session || jsFalsyOptStr s.baseUrl then
    ((none, some "Not connected to Jenkins server", []), [])
  else
    let url := stripSlash (s.baseUrl.getD "") ++ endpoint
    match net ⟨.get, url, none⟩ with
    | .ok data headers => ((some data, none, headers), [⟨.get, url, none⟩])
    | .err e => ((none, some (errClass e), failHeaders e), [⟨.get, url, none⟩])

/-- The fixed, ordered list of version header names. -/
def versionHeaderNames : List String :=
  ["x-jenkins", "x-jenkins-version", "jenkins-version", "server"]

/-- `Object.keys(headers).find(key => key.toLowerCase() === header.toLowerCase())`,
yielding that key's value. -/
def findHeaderValue (headers : Headers) (name : String) : Option String :=
  (headers.find? (fun kv => jsToLower kv.1 == jsToLower name)).map (fun kv => kv.2)

/-- The loop body of `getVersionFromHeaders` over the remaining header
names. -/
def probeVersionHeaders (headers : Headers) : List String → Option String
  | [] => none
  | h :: rest =>
    match findHeaderValue headers h with
    | some value =>
      if value != "" then
        if jsIncludes value "Jenkins" && jsIncludes value "/" then
          some ((jsSplit value '/').getLastD "")
        else if jsToLower h == "server" && jsIncludes value "Jenkins" then
          match (jsSplit value '/').find? (fun p => p != "" && jsFirstIsDigit p) with
          | some p => some p
          | none => probeVersionHeaders headers rest
        else some value
      else probeVersionHeaders headers rest
    | none => probeVersionHeaders headers rest

/-- `getVersionFromHeaders(headers)`. -/
def getVersionFromHeaders (headers : Headers) : Option String :=
  probeVersionHeaders headers versionHeaderNames

/-- `data.version || "Unknown"`, throwing when `data` is `null`. -/
def bodyVersionJ (data : JVal) : Except String JVal :=
  match jsProp data "version" with
  | .error m => .error m
  | .ok v? => .ok (jsOr v? (.str "Unknown"))

/-- The caller-side version resolution: header value if truthy, else the
body `version` field, else `"Unknown"`. -/
def resolveVersionJ (headers : Headers) (data : JVal) : Except String JVal :=
  match getVersionFromHeaders headers with
  | some v => if v == "" then bodyVersionJ data else .ok (.str v)
  | none => bodyVersionJ data

/-- `connect(url, username, password)`: sets the session tentatively,
probes `/api/json` with headers, rolls back on failure.  Returns the new
state, the `(success, message)` pair, and the requests issued. -/
def connect (net : Net) (url username password : String) :
    ClientState × (Bool × String) × List Request :=
  let s1 : ClientState := ⟨true, some url, some (createAuthHeader username password)⟩
  match makeRequest s1 net "/api/json" with
  | ((_, some err, _), calls) =>
    (initialState, (false, "Connection failed: " ++ err), calls)
  | ((data?, none, headers), calls) =>
    match resolveVersionJ headers (data?.getD .null) with
    | .error m => (initialState, (false, "Connection Error: " ++ m), calls)
    | .ok version =>
      (s1, (true, "Connected successfully to Jenkins v" ++ jsString version), calls)

/-- `testConnection()`. -/
def testConnection (s : ClientState) (net : Net) : (Bool × String) × List Request :=
  match makeRequest s net "/api/json" with
  | ((_, some serverError, _), calls) =>
    ((false, "❌ Connection failed: " ++ serverError), calls)
  | ((serverData?, none, headers), c1) =>
    match makeRequest s net "/me/api/json" with
    | ((_, some userError, _), c2) =>
      ((false, "❌ User info failed: " ++ userError), c1 ++ c2)
    | ((userData?, none, _), c2) =>
      match resolveVersionJ headers (serverData?.getD .null) with
      | .error m => ((false, "❌ Connection test failed: " ++ m), c1 ++ c2)
      | .ok version =>
        match jsProp (userData?.getD .null) "fullName" with
        | .error m => ((false, "❌ Connection test failed: " ++ m), c1 ++ c2)
        | .ok fn? =>
          let userName := jsOr fn? (.str "Unknown")
          ((true, "✅ Connected as " ++ squote (jsString userName) ++
            " to Jenkins v" ++ jsString version), c1 ++ c2)

/-- The endpoint selection of `getJobs`: the view-scoped listing for a view
name that is truthy, not `"All"` and not blank; otherwise the global
listing. -/
def getJobsEndpoint : Option String → String
  | some v =>
    if v != "" && v != "All" && jsTrim v != "" then
      "/view/" ++ encodeURIComponent v ++
        "/api/json?tree=jobs[name,color,url,buildable,description]"
    else "/api/json?tree=jobs[name,color,url,buildable,description]"
  | none => "/api/json?tree=jobs[name,color,url,buildable,description]"

/-- `getJobs(viewName)`. -/
def getJobs (s : ClientState) (net : Net) (viewName : Option String) :
    (Option JVal × Option String) × List Request :=
  match makeRequest s net (getJobsEndpoint viewName) with
  | ((_, some e, _), calls) => ((none, some ("Error listing jobs: " ++ e)), calls)
  | ((data?, none, _), calls) =>
    match jsProp (data?.getD .null) "jobs" with
    | .error m => ((none, some ("Error listing jobs: " ++ m)), calls)
    | .ok jobs? => ((some (jsOr jobs? (.arr [])), none), calls)

/-- `getJobDetail(jobName)`: the job name is embedded verbatim in the
endpoint. -/
def getJobDetail (s : ClientState) (net : Net) (jobName : String) :
    (Option JVal × Option String) × List Request :=
  let endpoint := "/job/" ++ jobName ++
    "/api/json?tree=name,description,buildable,color,url,lastBuild[number,url,result,timestamp],builds[number,url,result,timestamp]"
  match makeRequest s net endpoint with
  | ((_, some e, _), calls) =>
    ((none, some ("Error getting job details: " ++ e)), calls)
  | ((data?, none, _), calls) => ((some (data?.getD .null), none), calls)

/-- `getJobConfig(jobName)`: bypasses `makeRequest`, reading
`this.baseUrl` directly (throwing a `TypeError` when it is `null`), and
reports failures with the raw axios `error.message`. -/
def getJobConfig (s : ClientState) (net : Net) (jobName : String) :
    (Option JVal × Option String) × List Request :=
  match s.baseUrl with
  | none => ((none, some ("Error getting job config: " ++ nullReadMsg "replace")), [])
  | some base =>
    let url := stripSlash base ++ "/job/" ++ jobName ++ "/config.xml"
    match net ⟨.get, url, none⟩ with
    | .ok data _ => ((some data, none), [⟨.get, url, none⟩])
    | .err e =>
      ((none, some ("Error getting job config: " ++ axiosMessage e)), [⟨.get, url, none⟩])

/-- `updateJobConfig(jobName, configXml)`: raw XML POST to `config.xml`,
also bypassing `makeRequest`. -/
def updateJobConfig (s : ClientState) (net : Net) (jobName configXml : String) :
    (Bool × String) × List Request :=
  match s.baseUrl with
  | none => ((false, "Error updating job config: " ++ nullReadMsg "replace"), [])
  | some base =>
    let url := stripSlash base ++ "/job/" ++ jobName ++ "/config.xml"
    match net ⟨.post, url, some configXml⟩ with
    | .ok _ _ => ((true, "Job configuration updated successfully"), [⟨.post, url, some configXml⟩])
    | .err e =>
      ((false, "Error updating job config: " ++ axiosMessage e), [⟨.post, url, some configXml⟩])

/-- The assembled server-info record. -/
structure ServerInfo where
  version : JVal
  node_name : JVal
  user_info : JVal
  user_id : JVal
  plugin_count : Option JVal
  headers : Headers
  server_data : JVal

/-- `getServerInfo()`: fan-out to three endpoints; the user and plugin
sub-requests degrade to `"Unknown"` placeholders on failure. -/
def getServerInfo (s : ClientState) (net : Net) :
    (Option ServerInfo × Option String) × List Request :=
  match makeRequest s net "/api/json" with
  | ((_, some serverError, _), calls) =>
    ((none, some ("Error getting server info: " ++ serverError)), calls)
  | ((serverData?, none, headers), c1) =>
    let serverData := serverData?.getD .null
    match makeRequest s net "/me/api/json" with
    | ((userData?, userError?, _), c2) =>
      let userData := userData?.getD .null
      let userOk := userError?.isNone && jsTruthy userData
      let userInfo : JVal :=
        if userOk then jsOr (jsGet userData "fullName") (.str "Unknown")
        else .str "Unknown"
      let userId : JVal :=
        if userOk then jsOr (jsGet userData "id") (.str "Unknown")
        else .str "Unknown"
      match makeRequest s net "/pluginManager/api/json?depth=1" with
      | ((pluginData?, pluginError?, _), c3) =>
        let pluginData := pluginData?.getD .null
        let pluginCount : Option JVal :=
          if pluginError?.isNone && jsTruthy pluginData then
            jsLength (jsOr (jsGet pluginData "plugins") (.arr []))
          else some (.str "Unknown")
        match resolveVersionJ headers serverData with
        | .error m =>
          ((none, some ("Error getting server info: " ++ m)), c1 ++ c2 ++ c3)
        | .ok version =>
          match jsProp serverData "nodeName" with
          | .error m =>
            ((none, some ("Error getting server info: " ++ m)), c1 ++ c2 ++ c3)
          | .ok nn? =>
            ((some ⟨version, jsOr nn? (.str "Unknown"), userInfo, userId,
                pluginCount, headers, serverData⟩, none), c1 ++ c2 ++ c3)

/-- The debug-info record. -/
structure DebugInfo where
  headers : Headers
  json_keys : List String
  header_version : Option String
  json_version : JVal
  sample_data : List (String × String)

/-- `getDebugInfo()`: one probe of the root endpoint with headers;
`sample_data` stringifies and truncates the first 10 top-level values. -/
def getDebugInfo (s : ClientState) (net : Net) :
    (Option DebugInfo × Option String) × List Request :=
  match makeRequest s net "/api/json" with
  | ((_, some e, _), calls) => ((none, some ("Debug Error: " ++ e)), calls)
  | ((data?, none, headers), calls) =>
    let data := data?.getD .null
    match jsProp data "version" with
    | .error m => ((none, some ("Debug function error: " ++ m)), calls)
    | .ok ver? =>
      let json_keys := if isObjectLike data then jsKeys data else []
      let sample_data :=
        if isObjectLike data then
          ((jsKeys data).take 10).map
            (fun k => (k, jsSubstrTo (jsString ((jsIndex data k).getD .null)) 100))
        else []
      ((some ⟨headers, json_keys, getVersionFromHeaders headers,
          jsOr ver? (.str "Not found in JSON"), sample_data⟩, none), calls)

/-- A network oracle for the C4 witness: the root probe succeeds, every
other request is rejected with HTTP 403. -/
def c4net : Net := fun r =>
  if r.url == "http://h/api/json" then
    .ok (.obj [("version", .str "2.0"), ("nodeName", .str "n")]) []
  else .err (.httpError 403 "forbidden" [])

/-- A 15-key object body for the C7 witness. -/
def kvs15 : List (String × JVal) :=
  [("k01", .str "v01"), ("k02", .str "v02"), ("k03", .str "v03"),
   ("k04", .str "v04"), ("k05", .str "v05"), ("k06", .str "v06"),
   ("k07", .str "v07"), ("k08", .str "v08"), ("k09", .str "v09"),
   ("k10", .str "v10"), ("k11", .str "v11"), ("k12", .str "v12"),
   ("k13", .str "v13"), ("k14", .str "v14"), ("k15", .str "v15")]

/-- The two components of a `(result, error)` pair are never both
populated: a populated error comes with a null result and a populated
result with a null error.  (`none` models the JS `null`/absent slot; a JS
`null` payload is `some JVal.null`, which this predicate does not count as
evidence of anything — see `successNonNull`.) -/
def neverBothPopulated {α : Type} (r : Option α × Option String) : Prop :=
  (r.2.isSome = true → r.1 = none) ∧ (r.1.isSome = true → r.2 = none)

/-- On a success path (null error) the result slot holds a value — used
for the operations whose payload is a constructed record, which is never
the JS `null`. -/
def successPopulated {α : Type} (r : Option α × Option String) : Prop :=
  r.2 = none → r.1.isSome = true

/-- On a success path the result slot holds a value that is not the JS
`null` — the strong "never both empty" reading for a JSON payload. -/
def successNonNull (r : Option JVal × Option String) : Prop :=
  r.2 = none → ∃ v, r.1 = some v ∧ v ≠ JVal.null

/-! ## General lemmas about the embedding -/

theorem data_append (a b : String) : (a ++ b).data = a.data ++ b.data := rfl

theorem length_mk (l : List Char) : (String.mk l).length = l.length := rfl

theorem ne_of_charAt {a b : String} (n : Nat)
    (h : a.data[n]? ≠ b.data[n]?) : a ≠ b := by
  intro he
  exact h (by rw [he])

theorem charAt_append (p x : String) (n : Nat) (hn : n < p.data.length) :
    (p ++ x).data[n]? = p.data[n]? := by
  rw [data_append]
  exact List.getElem?_append_left hn

theorem append_ne_empty (p x : String) (hp : p.data ≠ []) : p ++ x ≠ "" := by
  intro h
  have hd : (p ++ x).data = [] := by rw [h]
  rw [data_append] at hd
  exact hp (List.append_eq_nil.mp hd).1

theorem data_append_ne_nil_left (a b : String) (ha : a.data ≠ []) :
    (a ++ b).data ≠ [] := by
  rw [data_append]
  intro h
  exact ha (List.append_eq_nil.mp h).1

theorem makeRequest_connected (s : ClientState) (net : Net) (endpoint b : String)
    (h1 : s.session = true) (h2 : s.baseUrl = some b) (h3 : (b == "") = false) :
    makeRequest s net endpoint =
      (match net ⟨.get, stripSlash b ++ endpoint, none⟩ with
       | .ok data headers =>
         ((some data, none, headers), [⟨.get, stripSlash b ++ endpoint, none⟩])
       | .err e =>
         ((none, some (errClass e), failHeaders e),
           [⟨.get, stripSlash b ++ endpoint, none⟩])) := by
  simp [makeRequest, h1, h2, jsFalsyOptStr, h3]

theorem makeRequest_calls (s : ClientState) (net : Net) (endpoint b : String)
    (h1 : s.session = true) (h2 : s.baseUrl = some b) (h3 : (b == "") = false) :
    (makeRequest s net endpoint).2 = [⟨.get, stripSlash b ++ endpoint, none⟩] := by
  rw [makeRequest_connected s net endpoint b h1 h2 h3]
  cases net ⟨.get, stripSlash b ++ endpoint, none⟩ <;> rfl

theorem makeRequest_ok (s : ClientState) (net : Net) (endpoint b : String)
    (d : JVal) (hs : Headers)
    (h1 : s.session = true) (h2 : s.baseUrl = some b) (h3 : (b == "") = false)
    (hnet : net ⟨.get, stripSlash b ++ endpoint, none⟩ = .ok d hs) :
    makeRequest s net endpoint =
      ((some d, none, hs), [⟨.get, stripSlash b ++ endpoint, none⟩]) := by
  rw [makeRequest_connected s net endpoint b h1 h2 h3, hnet]

theorem makeRequest_err (s : ClientState) (net : Net) (endpoint b : String)
    (e : AxiosError)
    (h1 : s.session = true) (h2 : s.baseUrl = some b) (h3 : (b == "") = false)
    (hnet : net ⟨.get, stripSlash b ++ endpoint, none⟩ = .err e) :
    makeRequest s net endpoint =
      ((none, some (errClass e), failHeaders e),
        [⟨.get, stripSlash b ++ endpoint, none⟩]) := by
  rw [makeRequest_connected s net endpoint b h1 h2 h3, hnet]

/-! ## Claim theorems -/

/-- C9: For every prior state, `connect` followed by `disconnect` leaves
`isConnected()` false; `disconnect` unconditionally clears the base URL,
credential header and session flag, always succeeds (it is a total
function into a state), and is idempotent. -/
theorem spec_c9 (s : ClientState) (net : Net) (url username password : String) :
    isConnected (disconnect (connect net url username password).1) = false ∧
    disconnect s = initialState ∧
    disconnect (disconnect s) = disconnect s ∧
    (disconnect s).session = false ∧
    (disconnect s).baseUrl = none ∧
    (disconnect s).authHeader = none :=
  ⟨rfl, rfl, rfl, rfl, rfl, rfl⟩

/-- C3: The version resolver returns `"2.401.3"` for header `X-Jenkins:
2.401.3`; returns `"2.401"` for `Server: Jetty(9)/Jenkins/2.401`; with no
matching header the caller falls back to the body `version` field, else to
the literal `"Unknown"` (shown both at resolver level and through
`connect`'s success message); and the header names are probed in the fixed
order x-jenkins, x-jenkins-version, jenkins-version, server,
case-insensitively. -/
theorem spec_c3 :
    getVersionFromHeaders [("X-Jenkins", "2.401.3")] = some "2.401.3" ∧
    getVersionFromHeaders [("Server", "Jetty(9)/Jenkins/2.401")] = some "2.401" ∧
    resolveVersionJ [] (.obj [("version", .str "2.401.3")]) = .ok (.str "2.401.3") ∧
    resolveVersionJ [] (.obj []) = .ok (.str "Unknown") ∧
    (connect (fun _ => .ok (.obj [("version", .str "2.401.3")]) []) "http://h" "u" "p").2.1
      = (true, "Connected successfully to Jenkins v2.401.3") ∧
    (connect (fun _ => .ok (.obj []) []) "http://h" "u" "p").2.1
      = (true, "Connected successfully to Jenkins vUnknown") ∧
    getVersionFromHeaders [("server", "Jenkins/2.2"), ("X-JENKINS", "1.1")] = some "1.1" ∧
    getVersionFromHeaders [("JENKINS-VERSION", "3.3"), ("x-jenkins-version", "2.2")]
      = some "2.2" ∧
    getVersionFromHeaders [("server", "Jenkins/9"), ("jenkins-version", "jv")] = some "jv" :=
  ⟨by decide, by decide, rfl, rfl, rfl, rfl, by decide, by decide, by decide⟩

/-- C1, counterexample: in the state where `session` is cleared but a base
URL is present, `isConnected()` is false, yet `getJobConfig` (which never
consults the session flag) issues a network request and can even succeed,
returning no error and no "not connected" condition at all. -/
theorem spec_c1_counterexample :
    isConnected ⟨false, some "http://h", none⟩ = false ∧
    (getJobConfig ⟨false, some "http://h", none⟩
      (fun _ => .ok (.str "cfg") []) "j").2 =
      [⟨.get, "http://h/job/j/config.xml", none⟩] ∧
    (getJobConfig ⟨false, some "http://h", none⟩
      (fun _ => .ok (.str "cfg") []) "j").1.2 = none :=
  ⟨rfl, rfl, rfl⟩

/-- C1, amended: in every fully disconnected state (session flag cleared
and base URL absent, the invariant `connect`/`disconnect` maintain), all
seven operations return an error without issuing any network request;
`testConnection`, `getJobs`, `getJobDetail`, `getServerInfo` and
`getDebugInfo` surface the distinct "Not connected to Jenkins server"
condition, while `getJobConfig` and `updateJobConfig` surface the caught
null-`baseUrl` `TypeError` message instead of a distinct not-connected
condition. -/
theorem spec_c1_amended (s : ClientState) (net : Net) (viewName : Option String)
    (jobName xml : String)
    (h1 : s.session = false) (h2 : s.baseUrl = none) :
    testConnection s net =
      ((false, "❌ Connection failed: Not connected to Jenkins server"), []) ∧
    getJobs s net viewName =
      ((none, some "Error listing jobs: Not connected to Jenkins server"), []) ∧
    getJobDetail s net jobName =
      ((none, some "Error getting job details: Not connected to Jenkins server"), []) ∧
    getServerInfo s net =
      ((none, some "Error getting server info: Not connected to Jenkins server"), []) ∧
    getDebugInfo s net =
      ((none, some "Debug Error: Not connected to Jenkins server"), []) ∧
    getJobConfig s net jobName =
      ((none, some ("Error getting job config: " ++ nullReadMsg "replace")), []) ∧
    updateJobConfig s net jobName xml =
      ((false, "Error updating job config: " ++ nullReadMsg "replace"), []) := by
  rcases s with ⟨sess, burl, auth⟩
  cases h1
  cases h2
  exact ⟨rfl, rfl, rfl, rfl, rfl, rfl, rfl⟩

/-- Witness for the amended C1 at the initial state. -/
theorem spec_c1_amended_witness :
    (initialState.session = false ∧ initialState.baseUrl = none) ∧
    testConnection initialState (fun _ => .ok .null []) =
      ((false, "❌ Connection failed: Not connected to Jenkins server"), []) :=
  ⟨⟨rfl, rfl⟩,
    (spec_c1_amended initialState (fun _ => .ok .null []) none "j" "x" rfl rfl).1⟩

/-- C2: whenever the probe request of `connect` fails, `connect` reports
failure, rolls the state back to fully disconnected (no partial session,
`isConnected()` false), and — for every truthy url — embeds the classified
transport error in its message. -/
theorem spec_c2 (url username password : String) (net : Net) (e : AxiosError)
    (hnet : net ⟨.get, stripSlash url ++ "/api/json", none⟩ = .err e) :
    (connect net url username password).1 = initialState ∧
    isConnected (connect net url username password).1 = false ∧
    (connect net url username password).2.1.1 = false ∧
    (url ≠ "" → (connect net url username password).2.1.2 =
      "Connection failed: " ++ errClass e) := by
  by_cases hu : url = ""
  · subst hu
    exact ⟨rfl, rfl, rfl, fun h => absurd rfl h⟩
  · have h3 : (url == "") = false := beq_eq_false_iff_ne.mpr hu
    have hm := makeRequest_err ⟨true, some url, some (createAuthHeader username password)⟩
      net "/api/json" url e rfl rfl h3 hnet
    refine ⟨?_, ?_, ?_, fun _ => ?_⟩ <;> simp [connect, hm, isConnected, initialState]

/-- Witness for C2. -/
theorem spec_c2_witness :
    ((fun _ => .err (.otherError "boom") : Net)
        ⟨.get, stripSlash "http://h" ++ "/api/json", none⟩ =
      .err (.otherError "boom")) ∧
    ((connect (fun _ => .err (.otherError "boom")) "http://h" "u" "p").1 = initialState ∧
     isConnected (connect (fun _ => .err (.otherError "boom")) "http://h" "u" "p").1 = false ∧
     (connect (fun _ => .err (.otherError "boom")) "http://h" "u" "p").2.1.1 = false ∧
     ("http://h" ≠ "" →
       (connect (fun _ => .err (.otherError "boom")) "http://h" "u" "p").2.1.2 =
         "Connection failed: " ++ errClass (.otherError "boom"))) :=
  ⟨rfl, spec_c2 "http://h" "u" "p" (fun _ => .err (.otherError "boom"))
    (.otherError "boom") rfl⟩

theorem getJobs_snd (s : ClientState) (net : Net) (vn : Option String) :
    (getJobs s net vn).2 = (makeRequest s net (getJobsEndpoint vn)).2 := by
  unfold getJobs
  split <;> rename_i heq
  · rw [heq]
  · rw [heq]
    split <;> rfl

theorem getJobDetail_snd (s : ClientState) (net : Net) (j : String) :
    (getJobDetail s net j).2 =
      (makeRequest s net ("/job/" ++ j ++
        "/api/json?tree=name,description,buildable,color,url,lastBuild[number,url,result,timestamp],builds[number,url,result,timestamp]")).2 := by
  simp only [getJobDetail]
  split <;> rename_i heq <;> rw [heq]

theorem getJobConfig_calls (s : ClientState) (net : Net) (j b : String)
    (h2 : s.baseUrl = some b) :
    (getJobConfig s net j).2 =
      [⟨.get, stripSlash b ++ "/job/" ++ j ++ "/config.xml", none⟩] := by
  simp only [getJobConfig, h2]
  cases net ⟨.get, stripSlash b ++ "/job/" ++ j ++ "/config.xml", none⟩ <;> rfl

theorem updateJobConfig_calls (s : ClientState) (net : Net) (j xml b : String)
    (h2 : s.baseUrl = some b) :
    (updateJobConfig s net j xml).2 =
      [⟨.post, stripSlash b ++ "/job/" ++ j ++ "/config.xml", some xml⟩] := by
  simp only [updateJobConfig, h2]
  cases net ⟨.post, stripSlash b ++ "/job/" ++ j ++ "/config.xml", some xml⟩ <;> rfl

theorem getJobs_view_calls (s : ClientState) (net : Net) (b v : String)
    (h1 : s.session = true) (h2 : s.baseUrl = some b) (h3 : (b == "") = false)
    (hAll : v ≠ "All") (htr : jsTrim v ≠ "") :
    (getJobs s net (some v)).2 =
      [⟨.get, stripSlash b ++ ("/view/" ++ encodeURIComponent v ++
        "/api/json?tree=jobs[name,color,url,buildable,description]"), none⟩] := by
  have hv : v ≠ "" := fun h => htr (by rw [h]; rfl)
  have hc : (v != "" && v != "All" && jsTrim v != "") = true := by
    simp [bne_iff_ne, hv, hAll, htr]
  rw [getJobs_snd, makeRequest_calls s net _ b h1 h2 h3]
  simp [getJobsEndpoint, hc]

/-- C6: with no view argument, with the sentinel `"All"` and with an empty
or blank view name, `getJobs` targets the identical global listing
endpoint; any other view name targets the view-scoped endpoint with the
view name percent-encoded. -/
theorem spec_c6 (s : ClientState) (net : Net) (b v : String)
    (h1 : s.session = true) (h2 : s.baseUrl = some b) (h3 : (b == "") = false) :
    (getJobs s net none).2 =
      [⟨.get, stripSlash b ++
        "/api/json?tree=jobs[name,color,url,buildable,description]", none⟩] ∧
    getJobsEndpoint (some "All") = getJobsEndpoint none ∧
    getJobsEndpoint (some "") = getJobsEndpoint none ∧
    (jsTrim v = "" → getJobsEndpoint (some v) = getJobsEndpoint none) ∧
    (v ≠ "All" → jsTrim v ≠ "" →
      (getJobs s net (some v)).2 =
        [⟨.get, stripSlash b ++ ("/view/" ++ encodeURIComponent v ++
          "/api/json?tree=jobs[name,color,url,buildable,description]"), none⟩]) ∧
    encodeURIComponent "qa-view" = "qa-view" ∧
    encodeURIComponent "a b/c" = "a%20b%2Fc" := by
  refine ⟨?_, by decide, by decide, ?_, ?_, by decide, by decide⟩
  · rw [getJobs_snd, makeRequest_calls s net _ b h1 h2 h3]
    rfl
  · intro ht
    simp [getJobsEndpoint, ht]
  · exact getJobs_view_calls s net b v h1 h2 h3

/-- Witness for C6 in a concrete connected state. -/
theorem spec_c6_witness :
    ((⟨true, some "http://h", none⟩ : ClientState).session = true ∧
     (⟨true, some "http://h", none⟩ : ClientState).baseUrl = some "http://h" ∧
     (("http://h" : String) == "") = false) ∧
    (getJobs ⟨true, some "http://h", none⟩ (fun _ => .ok .null []) none).2 =
      [⟨.get, stripSlash "http://h" ++
        "/api/json?tree=jobs[name,color,url,buildable,description]", none⟩] :=
  ⟨⟨rfl, rfl, by decide⟩,
    (spec_c6 ⟨true, some "http://h", none⟩ (fun _ => .ok .null []) "http://h" "qa-view"
      rfl rfl (by decide)).1⟩

/-- C10: `getJobDetail`, `getJobConfig` and `updateJobConfig` embed the
job name verbatim (not percent-encoded) into the `/job/{name}/...` request
target, unlike `getJobs` which percent-encodes the view name; so a job
name with reserved URL characters changes the request target rather than
being escaped. -/
theorem spec_c10 (s : ClientState) (net : Net) (b jobName xml : String)
    (h1 : s.session = true) (h2 : s.baseUrl = some b) (h3 : (b == "") = false) :
    (getJobDetail s net jobName).2 =
      [⟨.get, stripSlash b ++ ("/job/" ++ jobName ++
        "/api/json?tree=name,description,buildable,color,url,lastBuild[number,url,result,timestamp],builds[number,url,result,timestamp]"),
        none⟩] ∧
    (getJobConfig s net jobName).2 =
      [⟨.get, stripSlash b ++ "/job/" ++ jobName ++ "/config.xml", none⟩] ∧
    (updateJobConfig s net jobName xml).2 =
      [⟨.post, stripSlash b ++ "/job/" ++ jobName ++ "/config.xml", some xml⟩] ∧
    (jobName ≠ "All" → jsTrim jobName ≠ "" →
      (getJobs s net (some jobName)).2 =
        [⟨.get, stripSlash b ++ ("/view/" ++ encodeURIComponent jobName ++
          "/api/json?tree=jobs[name,color,url,buildable,description]"), none⟩]) ∧
    encodeURIComponent "a b" ≠ "a b" := by
  refine ⟨?_, getJobConfig_calls s net jobName b h2,
    updateJobConfig_calls s net jobName xml b h2,
    fun hAll htr => getJobs_view_calls s net b jobName h1 h2 h3 hAll htr,
    by decide⟩
  rw [getJobDetail_snd, makeRequest_calls s net _ b h1 h2 h3]

/-- Witness for C10 with a job name containing a space. -/
theorem spec_c10_witness :
    ((⟨true, some "http://h", none⟩ : ClientState).session = true ∧
     (⟨true, some "http://h", none⟩ : ClientState).baseUrl = some "http://h" ∧
     (("http://h" : String) == "") = false) ∧
    (getJobConfig ⟨true, some "http://h", none⟩ (fun _ => .ok .null []) "a b").2 =
      [⟨.get, stripSlash "http://h" ++ "/job/" ++ "a b" ++ "/config.xml", none⟩] :=
  ⟨⟨rfl, rfl, by decide⟩,
    (spec_c10 ⟨true, some "http://h", none⟩ (fun _ => .ok .null []) "http://h" "a b" "x"
      rfl rfl (by decide)).2.1⟩

theorem errClass_generic (st : Nat) (mg : String) (hhg : Headers)
    (h1 : (st == 401) = false) (h2 : (st == 403) = false)
    (h3 : (st == 404) = false) :
    errClass (.httpError st mg hhg) = "HTTP " ++ (toString st ++ (": " ++ mg)) := by
  simp [errClass, h1, h2, h3]

/-- C5: the transport primitive's error classification produces pairwise
distinct messages for HTTP 401 (the canonical authentication-failed
message), 403, 404, any other status (generic, containing the status
code), connection-refused/host-not-found (one shared category), timeout,
and the catch-all; in particular 401 is distinguishable from 403. -/
theorem spec_c5 (st : Nat) (m1 m2 m3 mg mc mt mo mn : String)
    (hh1 hh2 hh3 hhg : Headers)
    (h1 : st ≠ 401) (h2 : st ≠ 403) (h3 : st ≠ 404) :
    List.Pairwise (fun x y => x ≠ y)
      [errClass (.httpError 401 m1 hh1), errClass (.httpError 403 m2 hh2),
       errClass (.httpError 404 m3 hh3), errClass (.httpError st mg hhg),
       errClass (.econnrefused mc), errClass (.etimedout mt),
       errClass (.otherError mo)] ∧
    (∃ pre post, errClass (.httpError st mg hhg) = pre ++ (toString st ++ post)) ∧
    errClass (.econnrefused mc) = errClass (.enotfound mn) ∧
    errClass (.httpError 401 m1 hh1) =
      "Authentication failed - check username/password" := by
  have b1 : (st == 401) = false := beq_eq_false_iff_ne.mpr h1
  have b2 : (st == 403) = false := beq_eq_false_iff_ne.mpr h2
  have b3 : (st == 404) = false := beq_eq_false_iff_ne.mpr h3
  have hgen := errClass_generic st mg hhg b1 b2 b3
  have c10 : (errClass (.httpError 401 m1 hh1)).data[0]? = some (Char.ofNat 65) := rfl
  have c20 : (errClass (.httpError 403 m2 hh2)).data[0]? = some (Char.ofNat 65) := rfl
  have c30 : (errClass (.httpError 404 m3 hh3)).data[0]? = some (Char.ofNat 74) := rfl
  have c40 : (errClass (.httpError st mg hhg)).data[0]? = some (Char.ofNat 72) := by
    rw [hgen]
    rfl
  have c50 : (errClass (.econnrefused mc)).data[0]? = some (Char.ofNat 67) := rfl
  have c60 : (errClass (.etimedout mt)).data[0]? = some (Char.ofNat 82) := rfl
  have c70 : (errClass (.otherError mo)).data[0]? = some (Char.ofNat 82) := rfl
  have c11 : (errClass (.httpError 401 m1 hh1)).data[1]? = some (Char.ofNat 117) := rfl
  have c21 : (errClass (.httpError 403 m2 hh2)).data[1]? = some (Char.ofNat 99) := rfl
  have c68 : (errClass (.etimedout mt)).data[8]? = some (Char.ofNat 116) := rfl
  have c78 : (errClass (.otherError mo)).data[8]? = some (Char.ofNat 101) := rfl
  refine ⟨?_, ⟨"HTTP ", ": " ++ mg, hgen⟩, rfl, rfl⟩
  refine List.Pairwise.cons (fun y hy => ?_) (List.Pairwise.cons (fun y hy => ?_)
    (List.Pairwise.cons (fun y hy => ?_) (List.Pairwise.cons (fun y hy => ?_)
    (List.Pairwise.cons (fun y hy => ?_) (List.Pairwise.cons (fun y hy => ?_)
    (List.Pairwise.cons (fun y hy => ?_) List.Pairwise.nil))))))
  · simp only [List.mem_cons, List.not_mem_nil, or_false] at hy
    rcases hy with rfl | rfl | rfl | rfl | rfl | rfl <;>
      first
      | exact ne_of_charAt 0 (by simp only [c10, c20, c30, c40, c50, c60, c70]; decide)
      | exact ne_of_charAt 1 (by simp only [c11, c21]; decide)
  · simp only [List.mem_cons, List.not_mem_nil, or_false] at hy
    rcases hy with rfl | rfl | rfl | rfl | rfl <;>
      exact ne_of_charAt 0 (by simp only [c10, c20, c30, c40, c50, c60, c70]; decide)
  · simp only [List.mem_cons, List.not_mem_nil, or_false] at hy
    rcases hy with rfl | rfl | rfl | rfl <;>
      exact ne_of_charAt 0 (by simp only [c10, c20, c30, c40, c50, c60, c70]; decide)
  · simp only [List.mem_cons, List.not_mem_nil, or_false] at hy
    rcases hy with rfl | rfl | rfl <;>
      exact ne_of_charAt 0 (by simp only [c10, c20, c30, c40, c50, c60, c70]; decide)
  · simp only [List.mem_cons, List.not_mem_nil, or_false] at hy
    rcases hy with rfl | rfl <;>
      exact ne_of_charAt 0 (by simp only [c10, c20, c30, c40, c50, c60, c70]; decide)
  · simp only [List.mem_cons, List.not_mem_nil, or_false] at hy
    rcases hy with rfl
    exact ne_of_charAt 8 (by simp only [c68, c78]; decide)
  · simp only [List.not_mem_nil] at hy

/-- Witness for C5 at status 500. -/
theorem spec_c5_witness :
    ((500 : Nat) ≠ 401 ∧ (500 : Nat) ≠ 403 ∧ (500 : Nat) ≠ 404) ∧
    (List.Pairwise (fun x y => x ≠ y)
      [errClass (.httpError 401 "u1" []), errClass (.httpError 403 "u2" []),
       errClass (.httpError 404 "u3" []), errClass (.httpError 500 "boom" []),
       errClass (.econnrefused "c"), errClass (.etimedout "t"),
       errClass (.otherError "o")] ∧
     (∃ pre post, errClass (.httpError 500 "boom" []) = pre ++ (toString 500 ++ post)) ∧
     errClass (.econnrefused "c") = errClass (.enotfound "n") ∧
     errClass (.httpError 401 "u1" []) =
       "Authentication failed - check username/password") :=
  ⟨⟨by decide, by decide, by decide⟩,
    spec_c5 500 "u1" "u2" "u3" "boom" "c" "t" "o" "n" [] [] [] []
      (by decide) (by decide) (by decide)⟩

theorem jsProp_ok_of_ne_null (d : JVal) (k : String) (hd : d ≠ .null) :
    jsProp d k = .ok (jsGet d k) := by
  cases d <;> first | rfl | exact absurd rfl hd

theorem resolveVersionJ_ok (hs : Headers) (d : JVal) (hd : d ≠ .null) :
    ∃ v, resolveVersionJ hs d = .ok v := by
  unfold resolveVersionJ bodyVersionJ
  rw [jsProp_ok_of_ne_null d "version" hd]
  cases getVersionFromHeaders hs with
  | none => exact ⟨_, rfl⟩
  | some v =>
    cases hb : (v == "") <;> simp [hb]

/-- C4: when the primary root-info sub-request of `getServerInfo`
succeeds (with a non-null body), the operation reports no error whatever
the user and plugin sub-requests do; a failing plugin sub-request (the
user sub-request unconstrained) still yields a populated result with
`plugin_count = "Unknown"`; likewise a failing user sub-request (the
plugin sub-request unconstrained) substitutes `"Unknown"` for `user_info`
and `user_id`; and only a failure of the primary sub-request fails the
whole operation. -/
theorem spec_c4 (s : ClientState) (net : Net) (b : String) (d : JVal) (hs : Headers)
    (h1 : s.session = true) (h2 : s.baseUrl = some b) (h3 : (b == "") = false)
    (hnet : net ⟨.get, stripSlash b ++ "/api/json", none⟩ = .ok d hs)
    (hd : d ≠ .null) :
    (getServerInfo s net).1.2 = none ∧
    (∀ ep, net ⟨.get, stripSlash b ++ "/pluginManager/api/json?depth=1", none⟩ = .err ep →
      ∃ info, (getServerInfo s net).1.1 = some info ∧
        info.plugin_count = some (.str "Unknown")) ∧
    (∀ eu, net ⟨.get, stripSlash b ++ "/me/api/json", none⟩ = .err eu →
      ∃ info, (getServerInfo s net).1.1 = some info ∧
        info.user_info = .str "Unknown" ∧ info.user_id = .str "Unknown") ∧
    (∀ (net2 : Net) (e2 : AxiosError),
      net2 ⟨.get, stripSlash b ++ "/api/json", none⟩ = .err e2 →
      getServerInfo s net2 =
        ((none, some ("Error getting server info: " ++ errClass e2)),
          [⟨.get, stripSlash b ++ "/api/json", none⟩])) := by
  have hm1 := makeRequest_ok s net "/api/json" b d hs h1 h2 h3 hnet
  obtain ⟨v, hv⟩ := resolveVersionJ_ok hs d hd
  have hnn := jsProp_ok_of_ne_null d "nodeName" hd
  refine ⟨?_, ?_, ?_, ?_⟩
  · simp only [getServerInfo, hm1]
    rcases hm2 : makeRequest s net "/me/api/json" with ⟨⟨u?, ue?, uh⟩, c2⟩
    rcases hm3 : makeRequest s net "/pluginManager/api/json?depth=1" with ⟨⟨p?, pe?, ph⟩, c3⟩
    simp [hv, hnn]
  · intro ep hp
    have hm3 := makeRequest_err s net "/pluginManager/api/json?depth=1" b ep h1 h2 h3 hp
    simp only [getServerInfo, hm1]
    rcases hm2 : makeRequest s net "/me/api/json" with ⟨⟨u?, ue?, uh⟩, c2⟩
    simp [hm3, hv, hnn]
  · intro eu hu
    have hm2 := makeRequest_err s net "/me/api/json" b eu h1 h2 h3 hu
    simp only [getServerInfo, hm1, hm2]
    rcases hm3 : makeRequest s net "/pluginManager/api/json?depth=1" with ⟨⟨p?, pe?, ph⟩, c3⟩
    simp [hv, hnn]
  · intro net2 e2 he
    have hm := makeRequest_err s net2 "/api/json" b e2 h1 h2 h3 he
    simp [getServerInfo, hm]

/-- Witness for C4: root probe succeeds, user and plugin probes fail with
403, and `getServerInfo` still succeeds with `"Unknown"` placeholders. -/
theorem spec_c4_witness :
    ((⟨true, some "http://h", none⟩ : ClientState).session = true ∧
     (⟨true, some "http://h", none⟩ : ClientState).baseUrl = some "http://h" ∧
     (("http://h" : String) == "") = false ∧
     c4net ⟨.get, stripSlash "http://h" ++ "/api/json", none⟩ =
       .ok (.obj [("version", .str "2.0"), ("nodeName", .str "n")]) [] ∧
     c4net ⟨.get, stripSlash "http://h" ++ "/me/api/json", none⟩ =
       .err (.httpError 403 "forbidden" []) ∧
     c4net ⟨.get, stripSlash "http://h" ++ "/pluginManager/api/json?depth=1", none⟩ =
       .err (.httpError 403 "forbidden" [])) ∧
    (∃ info,
      (getServerInfo ⟨true, some "http://h", none⟩ c4net).1.1 = some info ∧
      info.plugin_count = some (.str "Unknown")) ∧
    (∃ info,
      (getServerInfo ⟨true, some "http://h", none⟩ c4net).1.1 = some info ∧
      info.user_info = .str "Unknown" ∧ info.user_id = .str "Unknown") :=
  ⟨⟨rfl, rfl, by decide, rfl, rfl, rfl⟩,
    (spec_c4 ⟨true, some "http://h", none⟩ c4net "http://h"
      (.obj [("version", .str "2.0"), ("nodeName", .str "n")]) []
      rfl rfl (by decide) rfl (fun h => JVal.noConfusion h)).2.1
      (.httpError 403 "forbidden" []) rfl,
    (spec_c4 ⟨true, some "http://h", none⟩ c4net "http://h"
      (.obj [("version", .str "2.0"), ("nodeName", .str "n")]) []
      rfl rfl (by decide) rfl (fun h => JVal.noConfusion h)).2.2.1
      (.httpError 403 "forbidden" []) rfl⟩

theorem jsSubstrTo_length_le (s : String) (n : Nat) :
    (jsSubstrTo s n).length ≤ n := by
  unfold jsSubstrTo
  rw [length_mk, List.length_take]
  exact Nat.min_le_left _ _

theorem map_find_take {β : Type} (g : String → Option JVal → β) :
    ∀ (kvs : List (String × JVal)) (n : Nat),
      (kvs.map (fun kv => kv.1)).Nodup →
      ((kvs.map (fun kv => kv.1)).take n).map
        (fun k => g k ((kvs.find? (fun kv => kv.1 == k)).map (fun kv => kv.2))) =
      (kvs.take n).map (fun kv => g kv.1 (some kv.2)) := by
  intro kvs
  induction kvs with
  | nil =>
    intro n _
    simp
  | cons kv rest ih =>
    intro n hnd
    cases n with
    | zero => simp
    | succ m =>
      have hnd' := List.nodup_cons.mp hnd
      have htail : ∀ k ∈ (rest.map (fun kv => kv.1)).take m,
          (List.find? (fun kv2 => kv2.1 == k) (kv :: rest)) =
          (List.find? (fun kv2 => kv2.1 == k) rest) := by
        intro k hk
        have hk2 : k ∈ rest.map (fun kv => kv.1) := List.take_subset _ _ hk
        have hne : (kv.1 == k) = false :=
          beq_eq_false_iff_ne.mpr (fun h => hnd'.1 (by simp only [h]; exact hk2))
        simp [List.find?, hne]
      simp only [List.map_cons, List.take_succ_cons, List.map_cons]
      congr 1
      · simp [List.find?]
      · rw [List.map_congr_left (fun k hk => by rw [htail k hk])]
        exact ih m hnd'.2

/-- C7: on a successful probe whose body is an object with 15 (distinct)
top-level keys, `getDebugInfo` returns `sample_data` with exactly 10
entries — the first 10 keys in order, each value stringified and truncated
to at most 100 characters — and `json_keys` lists all top-level keys. -/
theorem spec_c7 (s : ClientState) (net : Net) (b : String)
    (kvs : List (String × JVal)) (hs : Headers)
    (h1 : s.session = true) (h2 : s.baseUrl = some b) (h3 : (b == "") = false)
    (hnet : net ⟨.get, stripSlash b ++ "/api/json", none⟩ = .ok (.obj kvs) hs)
    (hnd : (kvs.map (fun kv => kv.1)).Nodup) (hlen : kvs.length = 15) :
    ∃ dbg, (getDebugInfo s net).1 = (some dbg, none) ∧
      dbg.sample_data = (kvs.take 10).map
        (fun kv => (kv.1, jsSubstrTo (jsString kv.2) 100)) ∧
      dbg.sample_data.length = 10 ∧
      dbg.json_keys = kvs.map (fun kv => kv.1) ∧
      ∀ p ∈ dbg.sample_data, p.2.length ≤ 100 := by
  have hm := makeRequest_ok s net "/api/json" b (.obj kvs) hs h1 h2 h3 hnet
  have hsample :
      ((jsKeys (.obj kvs)).take 10).map
        (fun k => (k, jsSubstrTo (jsString ((jsIndex (.obj kvs) k).getD .null)) 100)) =
      (kvs.take 10).map (fun kv => (kv.1, jsSubstrTo (jsString kv.2) 100)) := by
    simp only [jsKeys, jsIndex]
    exact (map_find_take
      (fun k v? => (k, jsSubstrTo (jsString (v?.getD JVal.null)) 100)) kvs 10 hnd).trans
      (by simp)
  have hred : getDebugInfo s net =
      ((some ⟨hs, jsKeys (.obj kvs), getVersionFromHeaders hs,
          jsOr (jsGet (.obj kvs) "version") (.str "Not found in JSON"),
          ((jsKeys (.obj kvs)).take 10).map
            (fun k => (k, jsSubstrTo (jsString ((jsIndex (.obj kvs) k).getD .null)) 100))⟩,
        none), [⟨.get, stripSlash b ++ "/api/json", none⟩]) := by
    simp [getDebugInfo, hm, jsProp, isObjectLike]
  refine ⟨_, by rw [hred], hsample, ?_, by simp [jsKeys], ?_⟩
  · rw [hsample, List.length_map, List.length_take, hlen]
    decide
  · intro p hp
    rw [hsample] at hp
    rcases List.mem_map.mp hp with ⟨kv, hkv, rfl⟩
    exact jsSubstrTo_length_le _ 100

/-- Witness for C7 on a concrete 15-key body. -/
theorem spec_c7_witness :
    ((⟨true, some "http://h", none⟩ : ClientState).session = true ∧
     (⟨true, some "http://h", none⟩ : ClientState).baseUrl = some "http://h" ∧
     (("http://h" : String) == "") = false ∧
     ((fun _ => .ok (.obj kvs15) []) : Net)
        ⟨.get, stripSlash "http://h" ++ "/api/json", none⟩ = .ok (.obj kvs15) [] ∧
     (kvs15.map (fun kv => kv.1)).Nodup ∧ kvs15.length = 15) ∧
    (∃ dbg, (getDebugInfo ⟨true, some "http://h", none⟩ (fun _ => .ok (.obj kvs15) [])).1
        = (some dbg, none) ∧
      dbg.sample_data = (kvs15.take 10).map
        (fun kv => (kv.1, jsSubstrTo (jsString kv.2) 100)) ∧
      dbg.sample_data.length = 10 ∧
      dbg.json_keys = kvs15.map (fun kv => kv.1) ∧
      ∀ p ∈ dbg.sample_data, p.2.length ≤ 100) :=
  ⟨⟨rfl, rfl, by decide, rfl, by decide, by decide⟩,
    spec_c7 ⟨true, some "http://h", none⟩ (fun _ => .ok (.obj kvs15) []) "http://h"
      kvs15 [] rfl rfl (by decide) rfl (by decide) (by decide)⟩

/-- C8, counterexample: on `connect`'s success path both tuple components
are populated — the flag `true` together with a non-empty message in the
second slot — so the nine operations do not all keep the two components
from being simultaneously populated (and `disconnect` returns no such pair
at all). -/
theorem spec_c8_counterexample :
    (connect (fun _ => .ok (.obj [("version", .str "2.0")]) []) "http://h" "u" "p").2.1
      = (true, "Connected successfully to Jenkins v2.0") ∧
    "Connected successfully to Jenkins v2.0" ≠ "" :=
  ⟨rfl, by decide⟩

theorem jsOr_ne_null (v? : Option JVal) (d : JVal) (hd : d ≠ .null) :
    jsOr v? d ≠ .null := by
  unfold jsOr
  cases v? with
  | none => exact hd
  | some v =>
    cases hv : jsTruthy v with
    | false => simpa [hv] using hd
    | true =>
      simp only [hv, if_true]
      intro h
      rw [h] at hv
      exact Bool.noConfusion hv

theorem neverBoth_getJobs (s : ClientState) (net : Net) (vn : Option String) :
    neverBothPopulated (getJobs s net vn).1 := by
  unfold getJobs
  try dsimp only
  repeat' split
  all_goals constructor
  all_goals intro h
  all_goals first | rfl | simp at h

theorem neverBoth_getJobDetail (s : ClientState) (net : Net) (j : String) :
    neverBothPopulated (getJobDetail s net j).1 := by
  unfold getJobDetail
  try dsimp only
  repeat' split
  all_goals constructor
  all_goals intro h
  all_goals first | rfl | simp at h

theorem neverBoth_getJobConfig (s : ClientState) (net : Net) (j : String) :
    neverBothPopulated (getJobConfig s net j).1 := by
  unfold getJobConfig
  try dsimp only
  repeat' split
  all_goals constructor
  all_goals intro h
  all_goals first | rfl | simp at h

theorem neverBoth_getServerInfo (s : ClientState) (net : Net) :
    neverBothPopulated (getServerInfo s net).1 := by
  unfold getServerInfo
  try dsimp only
  repeat' split
  all_goals constructor
  all_goals intro h
  all_goals first | rfl | simp at h

theorem neverBoth_getDebugInfo (s : ClientState) (net : Net) :
    neverBothPopulated (getDebugInfo s net).1 := by
  unfold getDebugInfo
  try dsimp only
  repeat' split
  all_goals constructor
  all_goals intro h
  all_goals first | rfl | simp at h

theorem successNonNull_getJobs (s : ClientState) (net : Net) (vn : Option String) :
    successNonNull (getJobs s net vn).1 := by
  unfold getJobs
  try dsimp only
  repeat' split
  all_goals intro h
  all_goals
    first
    | exact ⟨_, rfl, jsOr_ne_null _ _ (fun hh => JVal.noConfusion hh)⟩
    | simp at h

theorem successPopulated_getServerInfo (s : ClientState) (net : Net) :
    successPopulated (getServerInfo s net).1 := by
  unfold getServerInfo
  try dsimp only
  repeat' split
  all_goals intro h
  all_goals first | rfl | simp at h

theorem successPopulated_getDebugInfo (s : ClientState) (net : Net) :
    successPopulated (getDebugInfo s net).1 := by
  unfold getDebugInfo
  try dsimp only
  repeat' split
  all_goals intro h
  all_goals first | rfl | simp at h

theorem connect_msg_ne_empty (net : Net) (url u p : String) :
    (connect net url u p).2.1.2 ≠ "" := by
  unfold connect
  try dsimp only
  repeat' split
  all_goals try dsimp only
  all_goals exact append_ne_empty _ _ (by decide)

theorem testConnection_msg_ne_empty (s : ClientState) (net : Net) :
    (testConnection s net).1.2 ≠ "" := by
  unfold testConnection
  try dsimp only
  repeat' split
  all_goals try dsimp only
  all_goals
    first
    | exact append_ne_empty _ _ (by decide)
    | exact append_ne_empty _ _ (data_append_ne_nil_left _ _ (by decide))
    | exact append_ne_empty _ _
        (data_append_ne_nil_left _ _ (data_append_ne_nil_left _ _ (by decide)))

theorem updateJobConfig_msg_ne_empty (s : ClientState) (net : Net) (j xml : String) :
    (updateJobConfig s net j xml).1.2 ≠ "" := by
  unfold updateJobConfig
  try dsimp only
  repeat' split
  all_goals try dsimp only
  all_goals
    first
    | exact append_ne_empty _ _ (by decide)
    | decide

/-- C8, amended: the five data-returning operations never populate both
components of their `(result, error)` pair — a populated error comes with
a null result and conversely.  On success paths `getJobs` returns a
non-null result (it substitutes `[]` for a missing or falsy `jobs` field)
and `getServerInfo`/`getDebugInfo` return a constructed record; but
`getJobDetail` and `getJobConfig` forward the response body verbatim, so a
JSON-`null` body yields a null result together with a null error — both
components empty — on a success path.  `connect`, `testConnection` and
`updateJobConfig` pair a boolean flag with an always non-empty message
(both components populated even on success); `disconnect` returns no pair;
and no exception escapes — every failure path, the caught `TypeError`s
included, yields an error string. -/
theorem spec_c8_amended (s : ClientState) (net : Net) (vn : Option String)
    (name xml url u p : String) :
    neverBothPopulated (getJobs s net vn).1 ∧
    neverBothPopulated (getJobDetail s net name).1 ∧
    neverBothPopulated (getJobConfig s net name).1 ∧
    neverBothPopulated (getServerInfo s net).1 ∧
    neverBothPopulated (getDebugInfo s net).1 ∧
    successNonNull (getJobs s net vn).1 ∧
    successPopulated (getServerInfo s net).1 ∧
    successPopulated (getDebugInfo s net).1 ∧
    (connect net url u p).2.1.2 ≠ "" ∧
    (testConnection s net).1.2 ≠ "" ∧
    (updateJobConfig s net name xml).1.2 ≠ "" ∧
    (∀ (b : String) (hs : Headers),
      s.session = true → s.baseUrl = some b → (b == "") = false →
      net ⟨.get, stripSlash b ++ ("/job/" ++ name ++
        "/api/json?tree=name,description,buildable,color,url,lastBuild[number,url,result,timestamp],builds[number,url,result,timestamp]"),
        none⟩ = .ok .null hs →
      (getJobDetail s net name).1 = (some .null, none)) ∧
    (∀ (b : String) (hs : Headers), s.baseUrl = some b →
      net ⟨.get, stripSlash b ++ "/job/" ++ name ++ "/config.xml", none⟩ =
        .ok .null hs →
      (getJobConfig s net name).1 = (some .null, none)) := by
  refine ⟨neverBoth_getJobs s net vn, neverBoth_getJobDetail s net name,
    neverBoth_getJobConfig s net name, neverBoth_getServerInfo s net,
    neverBoth_getDebugInfo s net, successNonNull_getJobs s net vn,
    successPopulated_getServerInfo s net, successPopulated_getDebugInfo s net,
    connect_msg_ne_empty net url u p, testConnection_msg_ne_empty s net,
    updateJobConfig_msg_ne_empty s net name xml, ?_, ?_⟩
  · intro b hs h1 h2 h3 hnet
    have hm := makeRequest_ok s net ("/job/" ++ name ++
      "/api/json?tree=name,description,buildable,color,url,lastBuild[number,url,result,timestamp],builds[number,url,result,timestamp]")
      b .null hs h1 h2 h3 hnet
    simp [getJobDetail, hm]
  · intro b hs h2 hnet
    simp [getJobConfig, h2, hnet]

/-- Witness for the amended C8: a JSON-`null` config body makes
`getJobConfig` return the JS pair `[null, null]` — both components
empty. -/
theorem spec_c8_amended_witness :
    ((⟨true, some "http://h", none⟩ : ClientState).baseUrl = some "http://h" ∧
     ((fun _ => .ok .null []) : Net)
       ⟨.get, stripSlash "http://h" ++ "/job/" ++ "j" ++ "/config.xml", none⟩ =
       .ok .null []) ∧
    (getJobConfig ⟨true, some "http://h", none⟩ (fun _ => .ok .null []) "j").1
      = (some .null, none) :=
  ⟨⟨rfl, rfl⟩,
    (spec_c8_amended ⟨true, some "http://h", none⟩ (fun _ => .ok .null [])
      none "j" "x" "u" "u" "p").2.2.2.2.2.2.2.2.2.2.2.2 "http://h" [] rfl rfl⟩

end JenkinsClient
